import Mathlib

/-!
Shallow embedding of the schema-aware query assistance layer of
`pg-mcp-server.js` (the v1.6.0 server that ships in the repository).

JavaScript string methods (`trim`, `toLowerCase`, `startsWith`, `includes`,
regular-expression scanning) are modelled by executable functions over the
character list of a `String`; all SQL keywords and identifiers involved are
ASCII, where these models agree with the JavaScript semantics.
-/

namespace PgMcp

/-- model of JavaScript `String.prototype.toLowerCase` (ASCII). -/
def jsToLower (s : String) : String :=
  String.mk (s.data.map Char.toLower)

/-- model of JavaScript `String.prototype.trim`: strips leading and trailing
whitespace. -/
def jsTrim (s : String) : String :=
  String.mk (((s.data.dropWhile Char.isWhitespace).reverse.dropWhile
    Char.isWhitespace).reverse)

/-- model of JavaScript `String.prototype.startsWith`. -/
def jsStartsWith (s pre : String) : Bool :=
  List.isPrefixOf pre.data s.data

/-- does `needle` occur as a contiguous run inside `hay`? -/
def listIncludes (needle : List Char) : List Char → Bool
  | [] => List.isPrefixOf needle []
  | c :: cs => List.isPrefixOf needle (c :: cs) || listIncludes needle cs

/-- model of JavaScript `String.prototype.includes`. -/
def jsIncludes (s sub : String) : Bool :=
  listIncludes sub.data s.data

/-! ### Similarity Matcher (`levenshtein`, `findSimilar`, source lines 14-37) -/

/-- inner loop of the Levenshtein dynamic program (source lines 19-23): given
the current row character `bj` of `b`, the remaining characters of `a`, the
remaining entries of the previous matrix row, the previous row entry one
column back (`diag` = `matrix[j-1][i-1]`), and the entry just computed in the
current row (`curLeft` = `matrix[j][i-1]`), produce the rest of the current
row.  `cur = min(matrix[j][i-1]+1, matrix[j-1][i]+1, matrix[j-1][i-1]+cost)`
with `cost = 0` iff the two characters are equal (source lines 21-22). -/
def levRowAux (bj : Char) : List Char → List Nat → Nat → Nat → List Nat
  | [], _, _, _ => []
  | _ :: _, [], _, _ => []
  | c :: cs, p :: ps, diag, curLeft =>
    let cost : Nat := if c = bj then 0 else 1
    let cur := min (curLeft + 1) (min (p + 1) (diag + cost))
    cur :: levRowAux bj cs ps p cur

/-- one full row `matrix[j]` of the dynamic program, produced from the row
`matrix[j-1]`; the first entry is `j` (source line 18: `matrix[j][0] = j`). -/
def levRow (bj : Char) (a : List Char) (prevRow : List Nat) (j : Nat) :
    List Nat :=
  match prevRow with
  | [] => [j]
  | p0 :: ps => j :: levRowAux bj a ps p0 j

/-- `levenshtein(a, b)` from the source (lines 15-26): the classic
O(n·m) dynamic-programming edit distance.  Row `0` is `0,1,...,a.length`
(source line 17), each later row `j` is produced from row `j-1` and the
`j`-th character of `b`, and the answer is `matrix[b.length][a.length]`,
the last entry of the final row.  Character comparison (source line 21)
is exact: `a[i - 1] === b[j - 1]`. -/
def levenshtein (a b : String) : Nat :=
  let as := a.data
  let row0 : List Nat := List.range (as.length + 1)
  let final :=
    (b.data.foldl (fun acc bj => (levRow bj as acc.1 (acc.2 + 1), acc.2 + 1))
      (row0, 0)).1
  final.getLastD 0

/-- record produced per candidate inside `findSimilar` (source line 32). -/
structure SimEntry where
  name : String
  distance : Nat
deriving DecidableEq

/-- ordering used by the sort in `findSimilar` (source line 34, comparator
`(a, b) => a.distance - b.distance`). -/
def simLE (a b : SimEntry) : Prop := a.distance ≤ b.distance

instance : DecidableRel simLE := fun a b => Nat.decLe a.distance b.distance

instance : IsTotal SimEntry simLE := ⟨fun a b => Nat.le_total a.distance b.distance⟩

instance : IsTrans SimEntry simLE := ⟨fun _ _ _ h h2 => Nat.le_trans h h2⟩

/-- `findSimilar(target, candidates, maxDistance = 3)` from the source
(lines 29-37): lower-case the target, pair every candidate with its distance
to the lower-cased candidate, keep distances in `(0, maxDistance]`, sort
ascending by distance, take the first 5, return the names.  JavaScript
`Array.prototype.sort` is stable; it is modelled by the stable
`List.insertionSort`. -/
def findSimilar (target : String) (candidates : List String)
    (maxDistance : Nat) : List String :=
  let t := jsToLower target
  ((((candidates.map
      (fun c => SimEntry.mk c (levenshtein t (jsToLower c))))
    |>.filter (fun c => c.distance ≤ maxDistance && c.distance > 0))
    |>.insertionSort simLE)
    |>.take 5)
    |>.map (fun c => c.name)

example : levenshtein "usres" "users" = 2 := by decide
example : levenshtein "usres" "orders" = 4 := by decide
example : findSimilar "usres" ["users", "orders", "user_roles"] 3 =
    ["users"] := by decide

/-! ### Schema Cache (`cachedTables`, `cachedColumns`, `getSchemaCache`,
source lines 40-57) -/

/-- one row of the columns catalog query (source lines 50-54). -/
structure ColumnRow where
  table_name : String
  column_name : String
deriving DecidableEq

/-- the module-level mutable cache variables of the source (lines 40-41):
`cachedTables` and `cachedColumns`, each initially `null` (`none`). -/
structure SchemaCacheState where
  cachedTables : Option (List String)
  cachedColumns : Option (List ColumnRow)
deriving DecidableEq

/-- `getSchemaCache()` from the source (lines 42-57), with the two awaited
catalog queries passed in as `Except` values (`Except.error` = the awaited
promise rejects / the query throws).  The JavaScript control flow is: if
`cachedTables` is `null`, run the tables query and assign `cachedTables`
(line 48), then run the columns query and assign `cachedColumns` (line 54);
a throw aborts the function, leaving whatever assignments already happened
in place.  Finally the pair `{tables: cachedTables, columns: cachedColumns}`
is returned.  The result is the returned value (or the propagated error)
together with the cache state after the call. -/
def getSchemaCache (s : SchemaCacheState)
    (tablesQuery : Except String (List String))
    (columnsQuery : Except String (List ColumnRow)) :
    Except String (Option (List String) × Option (List ColumnRow)) ×
      SchemaCacheState :=
  match s.cachedTables with
  | some _ => (.ok (s.cachedTables, s.cachedColumns), s)
  | none =>
    match tablesQuery with
    | .error e => (.error e, s)
    | .ok ts =>
      let s1 : SchemaCacheState := { s with cachedTables := some ts }
      match columnsQuery with
      | .error e => (.error e, s1)
      | .ok cs =>
        let s2 : SchemaCacheState := { s1 with cachedColumns := some cs }
        (.ok (s2.cachedTables, s2.cachedColumns), s2)

/-! ### Error Enhancer (`enhanceError`, source lines 60-95) and its
regular-expression scanning -/

/-- drop `kw` from the front of `l`, comparing case-insensitively (`kw` is
already lower-case); `none` when `l` does not start with `kw`.  Models
matching a literal fragment of a `/.../i` regular expression. -/
def dropCiKw : List Char → List Char → Option (List Char)
  | [], l => some l
  | _ :: _, [] => none
  | k :: ks, c :: cs => if c.toLower = k then dropCiKw ks cs else none

/-- a character of the identifier class `[a-z0-9_]` under the `/i` flag. -/
def identClassChar (c : Char) : Bool :=
  c.isAlpha || c.isDigit || c = '_'

/-- try to match `kw` + `\s+` + `([a-z_][a-z0-9_]*)` (all case-insensitive)
at the current position, returning the capture. -/
def kwIdentAt (kw : List Char) (l : List Char) : Option String :=
  match dropCiKw kw l with
  | none => none
  | some rest =>
    match rest with
    | [] => none
    | c :: cs =>
      if c.isWhitespace then
        match cs.dropWhile Char.isWhitespace with
        | [] => none
        | d :: ds =>
          if d.isAlpha || d = '_' then
            some (String.mk (d :: ds.takeWhile identClassChar))
          else none
      else none

/-- leftmost match of `kw` + `\s+` + `([a-z_][a-z0-9_]*)` in a character
list; models `text.match(/kw\s+([a-z_][a-z0-9_]*)/i)` returning the capture
group. -/
def findKwIdent (kw : List Char) : List Char → Option String
  | [] => none
  | c :: cs =>
    match kwIdentAt kw (c :: cs) with
    | some t => some t
    | none => findKwIdent kw cs

/-- recovery of a table name from the failing SQL text (source lines 69-70):
`sql.match(/from\s+([a-z_][a-z0-9_]*)/i) || sql.match(/update\s+([a-z_][a-z0-9_]*)/i)`. -/
def tableFromSql (sql : String) : Option String :=
  match findKwIdent "from".data sql.data with
  | some t => some t
  | none => findKwIdent "update".data sql.data

/-- try to match `kw"` + `([^"]+)` + `" does not exist` (keywords matched
case-insensitively) at the current position, returning the capture. -/
def quotedNotExistAt (kw : List Char) (l : List Char) : Option String :=
  match dropCiKw kw l with
  | none => none
  | some rest =>
    let captured := rest.takeWhile (fun c => c ≠ '"')
    if captured.isEmpty then none
    else
      match dropCiKw ("\" does not exist".data) (rest.dropWhile (fun c => c ≠ '"')) with
      | some _ => some (String.mk captured)
      | none => none

/-- leftmost match of `kw"([^"]+)" does not exist` in a character list. -/
def findQuotedNotExist (kw : List Char) : List Char → Option String
  | [] => none
  | c :: cs =>
    match quotedNotExistAt kw (c :: cs) with
    | some t => some t
    | none => findQuotedNotExist kw cs

/-- `msg.match(/column "([^"]+)" does not exist/i)` (source line 65),
returning the capture group. -/
def findColumnNotFound (msg : String) : Option String :=
  findQuotedNotExist "column \"".data msg.data

/-- `msg.match(/relation "([^"]+)" does not exist/i)` (source line 86),
returning the capture group. -/
def findRelationNotFound (msg : String) : Option String :=
  findQuotedNotExist "relation \"".data msg.data

/-- helper for `dedup`: keep the elements not seen before. -/
def dedupAux (seen : List String) : List String → List String
  | [] => []
  | x :: xs =>
    if seen.contains x then dedupAux seen xs
    else x :: dedupAux (x :: seen) xs

/-- `[...new Set(list)]` (source line 79): deduplicate, keeping the first
occurrence of each element in input order. -/
def dedup (l : List String) : List String := dedupAux [] l

/-- the `Did you mean` fragment shared by the enhanced messages (source
lines 76, 81, 90): the joined suggestions, or the given marker when there
are none. -/
def didYouMean (suggestions : List String) (noneMarker : String) : String :=
  if suggestions.length > 0 then String.intercalate ", " suggestions
  else noneMarker

/-- `enhanceError(error, sql)` from the source (lines 60-95).  `msg` is
`error.message || ''` and `cache` is the result of the awaited
`getSchemaCache()` call on line 62 (an `Except.error` models that call
rejecting, which — having no surrounding try/catch — propagates out of
`enhanceError`).  On success the enhanced (or original) message is
returned. -/
def enhanceError (msg sql : String)
    (cache : Except String (List String × List ColumnRow)) :
    Except String String :=
  match cache with
  | .error e => .error e
  | .ok (tables, columns) =>
    match findColumnNotFound msg with
    | some badCol =>
      match tableFromSql sql with
      | some tableName =>
        let tableCols := (columns.filter
          (fun c => c.table_name = tableName)).map (fun c => c.column_name)
        let suggestions := findSimilar badCol tableCols 3
        .ok ("Column \"" ++ badCol ++ "\" does not exist in table \"" ++
          tableName ++ "\"\n\nDid you mean: " ++
          didYouMean suggestions "(no similar columns)" ++
          "\n\nAvailable columns in " ++ tableName ++ ": " ++
          String.intercalate ", " tableCols)
      | none =>
        let allCols := dedup (columns.map (fun c => c.column_name))
        let suggestions := findSimilar badCol allCols 3
        .ok ("Column \"" ++ badCol ++ "\" does not exist\n\nDid you mean: " ++
          didYouMean suggestions "(no similar columns)")
    | none =>
      match findRelationNotFound msg with
      | some badTable =>
        let suggestions := findSimilar badTable tables 3
        .ok ("Table \"" ++ badTable ++ "\" does not exist\n\nDid you mean: " ++
          didYouMean suggestions "(no similar tables)" ++
          "\n\nAvailable tables: " ++
          String.intercalate ", " (tables.take 20) ++
          (if tables.length > 20 then "..." else ""))
      | none => .ok msg

/-! ### Structure Inferencer (`extractJsonStructure`, source lines 98-115) -/

/-- a JSON-like runtime value, as produced by decoding a `jsonb` column. -/
inductive Json where
  | null
  | bool (b : Bool)
  | num (n : Int)
  | str (s : String)
  | arr (xs : List Json)
  | obj (kvs : List (String × Json))

/-- the value space returned by `extractJsonStructure`: the strings `'...'`
(truncation), `'null'`, `'[]'`, the `typeof` name of a primitive, a
one-element array wrapping the first element's structure, or an object
mapping each key (in encountered order) to its value's structure. -/
inductive Structure where
  | truncated
  | nullMark
  | emptyArr
  | arrayOf (s : Structure)
  | objectOf (fields : List (String × Structure))
  | primitive (typeName : String)

/-- JavaScript `typeof` on a JSON-like value (only the `bool`/`num`/`str`
cases are ever reached by `extractJsonStructure`, which handles `null`,
arrays and objects earlier). -/
def typeofJson : Json → String
  | .null => "object"
  | .bool _ => "boolean"
  | .num _ => "number"
  | .str _ => "string"
  | .arr _ => "object"
  | .obj _ => "object"

/-- fuel-indexed worker for `extractJsonStructure`: the source's recursion
is bounded by `maxDepth - currentDepth`, which is passed here as the first
argument (`0` means `currentDepth >= maxDepth`, source line 99).  The shape
dispatch mirrors source lines 100-114: `null`, then arrays (empty vs first
element sampled), then objects (every key in encountered order), then
`typeof`. -/
def extractFuel : Nat → Json → Structure
  | 0, _ => .truncated
  | _ + 1, .null => .nullMark
  | _ + 1, .arr [] => .emptyArr
  | n + 1, .arr (x :: _) => .arrayOf (extractFuel n x)
  | n + 1, .obj kvs =>
    .objectOf (kvs.map (fun kv => (kv.1, extractFuel n kv.2)))
  | _ + 1, v => .primitive (typeofJson v)

/-- `extractJsonStructure(obj, maxDepth, currentDepth)` from the source
(lines 98-115). -/
def extractJsonStructure (obj : Json) (maxDepth currentDepth : Nat) :
    Structure :=
  extractFuel (maxDepth - currentDepth) obj

/-! ### Query Classifier & Guard and the tool handlers (`handleQuery`,
`handleExecute`, `handleSampleData`, `handleDescribeTable`'s JSONB probing;
source lines 11, 228-280, 454-472, 504-522) -/

/-- `MAX_ROWS` (source line 11). -/
def MAX_ROWS : Nat := 100

/-- what a handler does with the SQL text before any database round trip:
either it throws an `McpError(ErrorCode.InvalidParams, msg)` (nothing is
executed), or it sends a statement text to `pool.query`. -/
inductive Outcome where
  | invalidParams (msg : String)
  | executed (sql : String)
deriving DecidableEq

/-- `handleQuery(args)` up to the database call (source lines 228-239):
reject a missing/empty `sql` (`!args.sql`), reject text that does not start
with `select`/`with`/`explain` after trimming and lower-casing, and append
` LIMIT ${MAX_ROWS}` unless the text starts with `explain` or contains the
token ` limit ` (source line 236). -/
def handleQuery (sql : String) : Outcome :=
  if sql = "" then .invalidParams "sql required"
  else
    let lower := jsToLower (jsTrim sql)
    if !jsStartsWith lower "select" && !jsStartsWith lower "with" &&
        !jsStartsWith lower "explain" then
      .invalidParams "Use SELECT, WITH, or EXPLAIN queries only"
    else
      .executed
        (if jsStartsWith lower "explain" || jsIncludes lower " limit " then
          sql
        else sql ++ " LIMIT " ++ toString MAX_ROWS)

/-- `handleExecute(args)` up to the database call (source lines 257-265):
reject a missing/empty `sql`, reject text whose trimmed, lower-cased form
starts with `select`; everything else is sent to the database unchanged. -/
def handleExecute (sql : String) : Outcome :=
  if sql = "" then .invalidParams "sql required"
  else if jsStartsWith (jsToLower (jsTrim sql)) "select" then
    .invalidParams "Use query tool for SELECT"
  else .executed sql

/-- cache effect of `handleExecute` (source lines 257-280): the handler
body contains no assignment to `cachedTables`/`cachedColumns` and calls no
invalidation function (none exists in this file), so the schema cache state
is unchanged whatever the statement was. -/
def handleExecuteState (sql : String) (s : SchemaCacheState) :
    Outcome × SchemaCacheState :=
  (handleExecute sql, s)

/-- the safe-identifier pattern `^[a-zA-Z_][a-zA-Z0-9_]*$` that the
repository's security test suite (`test-security-fixes.js`) requires
`assertSafeIdentifier` to enforce on every interpolated identifier. -/
def isSafeIdentifier (s : String) : Bool :=
  match s.data with
  | [] => false
  | c :: cs => (c.isAlpha || c = '_') && cs.all identClassChar

/-- the interpolated SQL text built by the JSONB key probing loop of
`handleDescribeTable` (source lines 460-465), with the template literal's
line breaks and indentation normalised to single spaces: both `jcol.col`
and `args.table` are spliced in verbatim. -/
def jsonbKeysQuery (tableName colName : String) : String :=
  "SELECT DISTINCT jsonb_object_keys(" ++ colName ++ ") as key FROM " ++
    tableName ++ " WHERE " ++ colName ++ " IS NOT NULL LIMIT 15"

/-- the row limit computed by `handleSampleData` (source line 514):
`Math.min(Math.max(1, args.limit || 3), 10)`, where `args.limit || 3` maps
an absent (or zero) limit to 3. -/
def sampleLimit (limitArg : Option Nat) : Nat :=
  let raw := match limitArg with
    | none => 3
    | some 0 => 3
    | some n => n
  min (max 1 raw) 10

/-- `handleSampleData(args)` up to the database call (source lines 504-522):
reject a missing/empty table name, reject a table name not present in the
cached table list (with suggestions), then interpolate the table name and
the optional `where` argument verbatim into the sampling query (the
template literal's line breaks are normalised to single spaces).  No
identifier validation is applied. -/
def handleSampleData (table : String) (whereArg : Option String)
    (limitArg : Option Nat) (tables : List String) : Outcome :=
  if table = "" then .invalidParams "table required"
  else if !(tables.contains table) then
    .invalidParams ("Table \"" ++ table ++ "\" not found\n\nDid you mean: " ++
      didYouMean (findSimilar table tables 3) "(no similar tables)")
  else
    let whereClause := match whereArg with
      | some w => "WHERE " ++ w
      | none => ""
    .executed ("SELECT * FROM " ++ table ++ " " ++ whereClause ++
      " LIMIT " ++ toString (sampleLimit limitArg))

/-! ## Helper lemmas -/

/-- a list with a prefix starting in `a` itself starts in `a`. -/
theorem isPrefixOf_head {a : Char} {as l : List Char}
    (h : List.isPrefixOf (a :: as) l = true) : ∃ cs, l = a :: cs := by
  cases l with
  | nil => simp [List.isPrefixOf] at h
  | cons c cs =>
    simp [List.isPrefixOf] at h
    exact ⟨cs, by rw [h.1]⟩

/-- two candidate prefixes with different first characters cannot both
match. -/
theorem isPrefixOf_false_of_ne {a b : Char} {as bs l : List Char}
    (hne : a ≠ b) (h : List.isPrefixOf (b :: bs) l = true) :
    List.isPrefixOf (a :: as) l = false := by
  obtain ⟨cs, rfl⟩ := isPrefixOf_head h
  simp [List.isPrefixOf]
  intro hab
  exact absurd hab hne

/-- text starting with `select` or `with` does not start with `explain`. -/
theorem not_explain_of_read {s : String}
    (h : jsStartsWith s "select" = true ∨ jsStartsWith s "with" = true) :
    jsStartsWith s "explain" = false := by
  unfold jsStartsWith at *
  have hexp : "explain".data = 'e' :: "xplain".data := rfl
  rw [hexp]
  rcases h with h | h
  · rw [show "select".data = 's' :: "elect".data from rfl] at h
    exact isPrefixOf_false_of_ne (by decide) h
  · rw [show "with".data = 'w' :: "ith".data from rfl] at h
    exact isPrefixOf_false_of_ne (by decide) h

/-- the appended row cap spelled out: `MAX_ROWS` is 100. -/
theorem limit_append (sql : String) :
    sql ++ " LIMIT " ++ toString MAX_ROWS = sql ++ " LIMIT 100" := by
  rw [String.append_assoc]
  rfl

/-- the empty string starts with no nonempty keyword. -/
theorem jsStartsWith_empty (pre : String) (h : pre.data ≠ []) :
    jsStartsWith (jsToLower (jsTrim "")) pre = false := by
  unfold jsStartsWith jsToLower jsTrim
  cases hp : pre.data with
  | nil => exact absurd hp h
  | cons c cs => rfl

/-! ## Claim theorems -/

/-- C1 — the claim says `assertSafeIdentifier` is applied to every
caller-supplied identifier before it is interpolated into SQL; the shipped
server has no such guard: a table name failing the safe-identifier pattern
(here `"a b"`, a legal quoted PostgreSQL name that can appear in the
catalog) passes `handleSampleData`'s catalog-membership check and is
spliced verbatim into the sampling query, and `handleDescribeTable`'s
JSONB probing splices a catalog-reported column name (here `"a b"`)
verbatim into the probing query.  In both cases a string not matching the
safe-identifier pattern reaches the database inside interpolated SQL. -/
theorem c1_identifier_guard_missing :
    isSafeIdentifier "a b" = false
  ∧ handleSampleData "a b" none none ["a b"] =
      .executed "SELECT * FROM a b  LIMIT 3"
  ∧ jsonbKeysQuery "orders" "a b" =
      "SELECT DISTINCT jsonb_object_keys(a b) as key FROM orders WHERE a b IS NOT NULL LIMIT 15" :=
  ⟨by decide, by decide, rfl⟩

/-- C2 counterexample — a statement whose trimmed, lower-cased text starts
with `with` is not rejected by the write entry point: `handleExecute`
sends it to the database unchanged, contradicting the claim that write-only
entry points reject both `select`- and `with`-prefixed text. -/
theorem c2_with_reaches_database :
    jsStartsWith
      (jsToLower (jsTrim "WITH x AS (SELECT 1) SELECT * FROM x")) "with" =
        true
  ∧ handleExecute "WITH x AS (SELECT 1) SELECT * FROM x" =
      .executed "WITH x AS (SELECT 1) SELECT * FROM x" :=
  ⟨by decide, by decide⟩

/-- C2 amended — the write entry point rejects exactly the statements whose
trimmed, lower-cased text starts with `select` (the error directs the
caller to the query tool and nothing is executed); any other nonempty text,
`with`-prefixed text included, is sent to the database unchanged. -/
theorem c2_execute_guard (sql : String) :
    (jsStartsWith (jsToLower (jsTrim sql)) "select" = true →
      handleExecute sql = .invalidParams "Use query tool for SELECT")
  ∧ (sql ≠ "" → jsStartsWith (jsToLower (jsTrim sql)) "select" = false →
      handleExecute sql = .executed sql) := by
  constructor
  · intro h
    by_cases he : sql = ""
    · subst he
      exact absurd h (by decide)
    · simp [handleExecute, he, h]
  · intro hne h
    simp [handleExecute, hne, h]

/-- C2 witness — the guard at two concrete statements. -/
theorem c2_execute_guard_witness :
    handleExecute "SELECT 1" = .invalidParams "Use query tool for SELECT"
  ∧ handleExecute "DELETE FROM t WHERE id = 1" =
      .executed "DELETE FROM t WHERE id = 1" :=
  ⟨(c2_execute_guard "SELECT 1").1 (by decide),
   (c2_execute_guard "DELETE FROM t WHERE id = 1").2 (by decide) (by decide)⟩

/-- C3 counterexample — when the tables query succeeds and the columns
query fails, `cachedTables` has already been written: the error propagates
but the snapshot is partially populated, and a subsequent reader observes
the table list from the failed refresh with no column list — even though
its own catalog queries would succeed, no fetch happens. -/
theorem c3_partial_snapshot_observable :
    getSchemaCache ⟨none, none⟩ (.ok ["users"]) (.error "boom") =
      (.error "boom", ⟨some ["users"], none⟩)
  ∧ (getSchemaCache ⟨some ["users"], none⟩ (.ok ["users"])
      (.ok [⟨"users", "id"⟩])).1 = .ok (some ["users"], none) :=
  ⟨rfl, rfl⟩

/-- C3 amended — if the first (tables) catalog query fails the snapshot is
left untouched and the error propagates with no retry; but if the second
(columns) query fails, the table list has already been cached: the error
still propagates with no retry, yet the snapshot is partially written, so
a later reader can observe `tables` populated with no matching `columns`. -/
theorem c3_cache_failure (s : SchemaCacheState)
    (h : s.cachedTables = none) :
    (∀ e q2, getSchemaCache s (.error e) q2 = (.error e, s))
  ∧ (∀ ts e, getSchemaCache s (.ok ts) (.error e) =
      (.error e, { s with cachedTables := some ts })) := by
  constructor
  · intro e q2
    simp [getSchemaCache, h]
  · intro ts e
    simp [getSchemaCache, h]

/-- C3 witness — both failure shapes at the initial (unpopulated) state. -/
theorem c3_cache_failure_witness :
    getSchemaCache ⟨none, none⟩ (.error "boom") (.ok []) =
      (.error "boom", ⟨none, none⟩)
  ∧ getSchemaCache ⟨none, none⟩ (.ok ["t"]) (.error "boom") =
      (.error "boom", ⟨some ["t"], none⟩) :=
  ⟨(c3_cache_failure ⟨none, none⟩ rfl).1 "boom" (.ok []),
   (c3_cache_failure ⟨none, none⟩ rfl).2 ["t"] "boom"⟩

/-- C4 — the claim says a successfully executed schema-mutating statement
invalidates the cache so that the next snapshot getter refetches; the
shipped server has no invalidation and no TTL: after `handleExecute`
accepts a `CREATE TABLE`, the cache state is unchanged, and the next
`getSchemaCache` call returns the stale snapshot while ignoring the fresh
catalog results it could have fetched. -/
theorem c4_no_invalidation_on_ddl :
    handleExecuteState "CREATE TABLE widgets (id int)"
        ⟨some ["old_table"], some [⟨"old_table", "id"⟩]⟩ =
      (.executed "CREATE TABLE widgets (id int)",
        ⟨some ["old_table"], some [⟨"old_table", "id"⟩]⟩)
  ∧ getSchemaCache ⟨some ["old_table"], some [⟨"old_table", "id"⟩]⟩
      (.ok ["old_table", "widgets"])
      (.ok [⟨"old_table", "id"⟩, ⟨"widgets", "id"⟩]) =
      (.ok (some ["old_table"], some [⟨"old_table", "id"⟩]),
        ⟨some ["old_table"], some [⟨"old_table", "id"⟩]⟩) :=
  ⟨rfl, rfl⟩

/-- C6 counterexample — when the awaited `getSchemaCache()` call inside
`enhanceError` fails, the failure propagates out of `enhanceError` (there
is no surrounding try/catch): the function does not fall back to the
original error message. -/
theorem c6_cache_failure_propagates :
    enhanceError "connection refused" "SELECT 1" (.error "boom") =
      .error "boom"
  ∧ enhanceError "connection refused" "SELECT 1" (.error "boom") ≠
      .ok "connection refused" :=
  ⟨rfl, fun h => Except.noConfusion h⟩

/-- C6 amended — `enhanceError` returns the original driver message
unchanged whenever it matches neither the column-not-found nor the
relation-not-found shape and the schema-cache lookup succeeds; but a
schema-cache failure is not caught — it propagates to the caller instead
of falling back to the original message. -/
theorem c6_enhance_behaviour :
    (∀ msg sql e, enhanceError msg sql (.error e) = .error e)
  ∧ (∀ msg sql tables columns,
      findColumnNotFound msg = none →
      findRelationNotFound msg = none →
      enhanceError msg sql (.ok (tables, columns)) = .ok msg) := by
  constructor
  · intro msg sql e
    rfl
  · intro msg sql tables columns h1 h2
    simp [enhanceError, h1, h2]

/-- C6 witness — both behaviours at a concrete unrecognized message. -/
theorem c6_enhance_behaviour_witness :
    enhanceError "deadlock detected" "SELECT 1" (.error "boom") =
      .error "boom"
  ∧ enhanceError "deadlock detected" "SELECT 1"
      (.ok (["users"], [⟨"users", "id"⟩])) = .ok "deadlock detected" :=
  ⟨c6_enhance_behaviour.1 "deadlock detected" "SELECT 1" "boom",
   c6_enhance_behaviour.2 "deadlock detected" "SELECT 1" ["users"]
     [⟨"users", "id"⟩] (by decide) (by decide)⟩

/-- C7 counterexample — `levenshtein` compares characters exactly, so the
claimed case-insensitivity equation fails already on the one-character
strings `"A"` and `"a"`: `levenshtein "A" "a" = 1` while the distance of
the lower-cased strings is `0`. -/
theorem c7_case_insensitive_fails :
    ¬ (levenshtein "A" "a" = levenshtein (jsToLower "A") (jsToLower "a")) :=
  by decide

/-- C7 amended — `levenshtein` is case-sensitive: for one-character
strings the distance is `0` exactly when the characters are equal and `1`
otherwise, so characters differing only in case contribute substitution
cost 1.  (Case-insensitive comparison is obtained by the caller
`findSimilar`, which lower-cases both strings first.) -/
theorem c7_substitution_cost_exact (c d : Char) :
    levenshtein (String.mk [c]) (String.mk [d]) =
      if c = d then 0 else 1 := by
  have h : levenshtein (String.mk [c]) (String.mk [d]) =
      min 2 (min 2 (0 + if c = d then 0 else 1)) := rfl
  rw [h]
  by_cases hcd : c = d <;> simp [hcd]

/-- C9 — shape dispatch of `extractJsonStructure` below the depth bound:
`null` maps to the null marker, the empty array to an empty-array marker
distinct from `arrayOf`, a non-empty array to `arrayOf` of the inference of
its first element only (the tail is never inspected), an object to the
mapping of each key in encountered order, any other value to a `primitive`
node naming its runtime type; and the concrete example from the spec. -/
theorem c9_infer_structure_cases :
    (∀ md d, d < md → extractJsonStructure .null md d = .nullMark)
  ∧ (∀ md d, d < md → extractJsonStructure (.arr []) md d = .emptyArr)
  ∧ (∀ s, Structure.emptyArr ≠ Structure.arrayOf s)
  ∧ (∀ md d x xs, d < md →
      extractJsonStructure (.arr (x :: xs)) md d =
        .arrayOf (extractJsonStructure x md (d + 1)))
  ∧ (∀ md d kvs, d < md →
      extractJsonStructure (.obj kvs) md d =
        .objectOf (kvs.map (fun kv => (kv.1, extractJsonStructure kv.2 md (d + 1)))))
  ∧ (∀ md d b, d < md →
      extractJsonStructure (.bool b) md d = .primitive "boolean")
  ∧ (∀ md d n, d < md →
      extractJsonStructure (.num n) md d = .primitive "number")
  ∧ (∀ md d s, d < md →
      extractJsonStructure (.str s) md d = .primitive "string")
  ∧ extractJsonStructure (.obj [("a", .arr [.obj [("b", .num 1)]])]) 5 0 =
      .objectOf [("a", .arrayOf (.objectOf [("b", .primitive "number")]))] := by
  refine ⟨?_, ?_, ?_, ?_, ?_, ?_, ?_, ?_, rfl⟩
  · intro md d h
    show extractFuel (md - d) _ = _
    rw [show md - d = (md - (d + 1)) + 1 by omega]
    rfl
  · intro md d h
    show extractFuel (md - d) _ = _
    rw [show md - d = (md - (d + 1)) + 1 by omega]
    rfl
  · intro s hs
    exact Structure.noConfusion hs
  · intro md d x xs h
    show extractFuel (md - d) _ = _
    rw [show md - d = (md - (d + 1)) + 1 by omega]
    rfl
  · intro md d kvs h
    show extractFuel (md - d) _ = _
    rw [show md - d = (md - (d + 1)) + 1 by omega]
    rfl
  · intro md d b h
    show extractFuel (md - d) _ = _
    rw [show md - d = (md - (d + 1)) + 1 by omega]
    rfl
  · intro md d n h
    show extractFuel (md - d) _ = _
    rw [show md - d = (md - (d + 1)) + 1 by omega]
    rfl
  · intro md d s h
    show extractFuel (md - d) _ = _
    rw [show md - d = (md - (d + 1)) + 1 by omega]
    rfl

/-- C9 witness — the bounded cases at depth 0 with bound 5. -/
theorem c9_infer_structure_cases_witness :
    extractJsonStructure .null 5 0 = .nullMark
  ∧ extractJsonStructure (.arr []) 5 0 = .emptyArr
  ∧ extractJsonStructure (.arr [.num 7, .str "ignored"]) 5 0 =
      .arrayOf (extractJsonStructure (.num 7) 5 1)
  ∧ extractJsonStructure (.obj [("k", .bool true)]) 5 0 =
      .objectOf [("k", extractJsonStructure (.bool true) 5 1)]
  ∧ extractJsonStructure (.str "x") 5 0 = .primitive "string" :=
  ⟨c9_infer_structure_cases.1 5 0 (by decide),
   c9_infer_structure_cases.2.1 5 0 (by decide),
   c9_infer_structure_cases.2.2.2.1 5 0 (.num 7) [.str "ignored"] (by decide),
   c9_infer_structure_cases.2.2.2.2.1 5 0 [("k", .bool true)] (by decide),
   c9_infer_structure_cases.2.2.2.2.2.2.2.1 5 0 "x" (by decide)⟩

/-- C10 — the depth check precedes every shape check: whenever
`currentDepth >= maxDepth` the result is the truncation marker for every
value, null and primitives included; in particular both `null` and the
number `3` at bound 0 yield the truncation marker. -/
theorem c10_depth_check_first :
    (∀ v md d, md ≤ d → extractJsonStructure v md d = .truncated)
  ∧ extractJsonStructure .null 0 0 = .truncated
  ∧ extractJsonStructure (.num 3) 0 0 = .truncated := by
  refine ⟨?_, rfl, rfl⟩
  intro v md d h
  show extractFuel (md - d) v = _
  rw [Nat.sub_eq_zero_of_le h]
  rfl

/-- C10 witness — truncation at a deep position past the bound. -/
theorem c10_depth_check_first_witness :
    extractJsonStructure (.str "x") 2 5 = .truncated :=
  c10_depth_check_first.1 (.str "x") 2 5 (by decide)

/-- C5 — row-cap policy of `handleQuery`: a query whose trimmed, lower-cased
text starts with `select` or `with` and does not contain the token
` limit ` is executed as the original text with ` LIMIT 100` appended; a
query starting with `explain` is executed unmodified, with no limit clause
ever appended. -/
theorem c5_row_cap_policy (sql : String) :
    ((jsStartsWith (jsToLower (jsTrim sql)) "select" = true ∨
      jsStartsWith (jsToLower (jsTrim sql)) "with" = true) →
     jsIncludes (jsToLower (jsTrim sql)) " limit " = false →
     handleQuery sql = .executed (sql ++ " LIMIT 100"))
  ∧ (jsStartsWith (jsToLower (jsTrim sql)) "explain" = true →
     handleQuery sql = .executed sql) := by
  constructor
  · intro h hlim
    have hne : sql ≠ "" := by
      intro he; subst he
      rcases h with h | h <;> exact absurd h (by decide)
    have hexp := not_explain_of_read h
    rw [← limit_append]
    rcases h with h | h <;> simp [handleQuery, hne, h, hexp, hlim]
  · intro h
    have hne : sql ≠ "" := by
      intro he; subst he
      exact absurd h (by decide)
    simp [handleQuery, hne, h]

/-- C5 witness — a plain select gets the cap appended, the spec's
`EXPLAIN SELECT * FROM big_table` example is executed unmodified. -/
theorem c5_row_cap_policy_witness :
    handleQuery "select * from t" = .executed "select * from t LIMIT 100"
  ∧ handleQuery "EXPLAIN SELECT * FROM big_table" =
      .executed "EXPLAIN SELECT * FROM big_table" :=
  ⟨(c5_row_cap_policy "select * from t").1 (Or.inl (by decide)) (by decide),
   (c5_row_cap_policy "EXPLAIN SELECT * FROM big_table").2 (by decide)⟩

/-- every name returned by `findSimilar` is a candidate (in original
casing) whose case-folded distance to the target is strictly positive and
at most the distance bound. -/
theorem mem_findSimilar {target name : String} {cands : List String}
    {maxD : Nat} (hmem : name ∈ findSimilar target cands maxD) :
    name ∈ cands ∧
    0 < levenshtein (jsToLower target) (jsToLower name) ∧
    levenshtein (jsToLower target) (jsToLower name) ≤ maxD := by
  simp only [findSimilar] at hmem
  obtain ⟨rec, hrec, hname⟩ := List.mem_map.mp hmem
  have h2 := (List.perm_insertionSort simLE _).mem_iff.mp
    (List.mem_of_mem_take hrec)
  rw [List.mem_filter] at h2
  obtain ⟨hmm, hp⟩ := h2
  obtain ⟨c, hc, hceq⟩ := List.mem_map.mp hmm
  subst hname
  cases hceq
  simp only [Bool.and_eq_true, decide_eq_true_eq] at hp
  exact ⟨hc, hp.2, hp.1⟩

/-- the names returned by `findSimilar` are ordered by nondecreasing
case-folded distance to the target. -/
theorem pairwise_findSimilar (target : String) (cands : List String)
    (maxD : Nat) :
    (findSimilar target cands maxD).Pairwise
      (fun n1 n2 => levenshtein (jsToLower target) (jsToLower n1) ≤
        levenshtein (jsToLower target) (jsToLower n2)) := by
  simp only [findSimilar]
  rw [List.pairwise_map]
  have htake : List.Pairwise simLE
      (((cands.map (fun c =>
          SimEntry.mk c (levenshtein (jsToLower target) (jsToLower c)))).filter
        (fun c => c.distance ≤ maxD && c.distance > 0)).insertionSort simLE
        |>.take 5) :=
    List.Pairwise.sublist (List.take_sublist 5 _)
      (List.sorted_insertionSort simLE _)
  refine List.Pairwise.imp_of_mem ?_ htake
  intro a b ha hb hab
  have hinv : ∀ rec ∈ (((cands.map (fun c =>
      SimEntry.mk c (levenshtein (jsToLower target) (jsToLower c)))).filter
        (fun c => c.distance ≤ maxD && c.distance > 0)).insertionSort simLE
        |>.take 5),
      rec.distance = levenshtein (jsToLower target) (jsToLower rec.name) := by
    intro rec hrec
    have h2 := (List.perm_insertionSort simLE _).mem_iff.mp
      (List.mem_of_mem_take hrec)
    rw [List.mem_filter] at h2
    obtain ⟨c, hc, hceq⟩ := List.mem_map.mp h2.1
    cases hceq
    rfl
  rw [← hinv a ha, ← hinv b hb]
  exact hab

/-- C8 — `findSimilar` returns at most 5 names; each returned name is a
candidate in its original casing whose case-folded distance to the target
is in `(0, maxDistance]` (exact matches and distances beyond the bound are
discarded); the returned names are sorted by nondecreasing distance (the
underlying sort is stable, so ties keep candidate input order); and the
spec's concrete example returns exactly `["users"]`. -/
theorem c8_rank_similar :
    (findSimilar "usres" ["users", "orders", "user_roles"] 3 = ["users"])
  ∧ (∀ target cands maxD, (findSimilar target cands maxD).length ≤ 5)
  ∧ (∀ target cands maxD name, name ∈ findSimilar target cands maxD →
      name ∈ cands ∧
      0 < levenshtein (jsToLower target) (jsToLower name) ∧
      levenshtein (jsToLower target) (jsToLower name) ≤ maxD)
  ∧ (∀ target cands maxD, (findSimilar target cands maxD).Pairwise
      (fun n1 n2 => levenshtein (jsToLower target) (jsToLower n1) ≤
        levenshtein (jsToLower target) (jsToLower n2))) := by
  refine ⟨by decide, ?_, ?_, ?_⟩
  · intro target cands maxD
    simp only [findSimilar, List.length_map]
    exact List.length_take_le 5 _
  · intro target cands maxD name hmem
    exact mem_findSimilar hmem
  · intro target cands maxD
    exact pairwise_findSimilar target cands maxD

/-- C8 witness — the membership part of the claim at the spec's example. -/
theorem c8_rank_similar_witness :
    "users" ∈ ["users", "orders", "user_roles"] ∧
    0 < levenshtein (jsToLower "usres") (jsToLower "users") ∧
    levenshtein (jsToLower "usres") (jsToLower "users") ≤ 3 :=
  c8_rank_similar.2.2.1 "usres" ["users", "orders", "user_roles"] 3 "users"
    (by decide)

end PgMcp
